import Mathlib

/-!
Verification of the fake-review detection frontend and of the scoring /
aggregation pipeline specified for the Fake_Review_Amazon repository.

The React frontend (charts, badges, cards, API service) is embedded from the
JSX/JS sources directly.  The backend pipeline (Preprocessor, Rule Scorer,
Learned Classifier, Hybrid Scorer, Aggregator) is not part of the checked-in
sources; its components are modelled from the specification where needed and
marked as such in their doc comments.

Numbers: JS numeric ratings, percentages and confidences are modelled as `ℚ`
(the inputs in question are finite decimals, exactly representable);
`Math.round` is modelled by Mathlib's `round` (round half towards +∞, which
is JS semantics on the reals).
-/

namespace FakeReview

/-! ## Frontend: ResultsPage (src/unnamed/part_001) -/

/-- Severity colour tiers for the fake-percentage metric card, from
`getFakePercentageColor` in the results page. -/
def getFakePercentageColor (percentage : ℚ) : String :=
  if percentage < 15 then "text-green-600"
  else if percentage < 30 then "text-yellow-600"
  else if percentage < 50 then "text-orange-600"
  else "text-red-600"

/-- A review record as the frontend sees it: the fields consumed by
`RatingChart`, `ReviewCard` and the results-page filter.  `label` is an
`Option String` so that a missing/null label is representable. -/
structure FrontReview where
  rating : ℚ
  label : Option String
  confidence : ℚ
deriving Repr, DecidableEq

/-- The results-page review filter: `'all'` keeps everything, otherwise keep
exactly the reviews whose `label` strictly equals the filter string
(`review.label === reviewFilter`). -/
def filteredReviews (reviewFilter : String) (reviews : List FrontReview) :
    List FrontReview :=
  reviews.filter (fun review =>
    if reviewFilter = "all" then true else review.label == some reviewFilter)

/-! ## Frontend: RatingChart (src/frontend/src/charts/RatingChart.jsx) -/

/-- The per-bucket tallies built by `calculateDistribution`: for each star
bucket a genuine count and a fake count, kept as functions on the bucket
key. -/
structure Distribution where
  genuine : ℤ → ℕ
  fake : ℤ → ℕ

/-- The initial distribution object: every bucket starts at zero. -/
def initDistribution : Distribution := ⟨fun _ => 0, fun _ => 0⟩

/-- `Math.max(1, Math.min(5, Math.round(review.rating)))`: the rating is
rounded and clamped into the 1–5 bucket range. -/
def clampedRating (rating : ℚ) : ℤ :=
  max 1 (min 5 (round rating))

/-- The body of the `forEach` in `calculateDistribution`: bump the fake tally
of the review's clamped bucket when `review.label === 'fake'`, otherwise bump
the genuine tally. -/
def tallyReview (d : Distribution) (review : FrontReview) : Distribution :=
  let b := clampedRating review.rating
  if review.label == some "fake" then
    { d with fake := Function.update d.fake b (d.fake b + 1) }
  else
    { d with genuine := Function.update d.genuine b (d.genuine b + 1) }

/-- `calculateDistribution`: fold the tally over the review list. -/
def calculateDistribution (reviews : List FrontReview) : Distribution :=
  reviews.foldl tallyReview initDistribution

/-- Sum of the genuine series over the five buckets. -/
def genuineTotal (d : Distribution) : ℕ :=
  d.genuine 1 + d.genuine 2 + d.genuine 3 + d.genuine 4 + d.genuine 5

/-- Sum of the fake series over the five buckets. -/
def fakeTotal (d : Distribution) : ℕ :=
  d.fake 1 + d.fake 2 + d.fake 3 + d.fake 4 + d.fake 5

/-- The pie-chart total from `FakeGenuineChart`: `fakeCount + genuineCount`. -/
def pieTotal (fakeCount genuineCount : ℕ) : ℕ := fakeCount + genuineCount

/-! ## Frontend: GradeBadge (src/frontend/src/components/GradeBadge.jsx) -/

/-- The `gradeColors` mapping of `GradeBadge` together with the
`|| gradeColors['N/A']` fallback: any grade string outside the mapping gets
the neutral grey badge. -/
def gradeBadgeColor (grade : String) : String :=
  if grade = "A" then "bg-green-500"
  else if grade = "B" then "bg-lime-500"
  else if grade = "C" then "bg-yellow-500"
  else if grade = "D" then "bg-orange-500"
  else if grade = "F" then "bg-red-500"
  else if grade = "N/A" then "bg-gray-400"
  else "bg-gray-400"

/-! ## Frontend: ReviewCard (src/frontend/src/components/ReviewCard.jsx) -/

/-- The confidence percentage displayed on the review card:
`Math.round(confidence * 100)`. -/
def confidencePercent (confidence : ℚ) : ℤ := round (confidence * 100)

/-! ## Frontend: API service (src/frontend/src/services/api.js) -/

/-- The possible outcomes of an axios request as discriminated by the error
handling in api.js: a successful response carrying data, a server error
response with an optional error detail (`error.response`), a request that got
no response (`error.request`), and a request-setup error with an optional
message. -/
inductive HttpOutcome where
  | success (data : String)
  | errorResponse (detail : Option String)
  | noResponse
  | setupError (message : Option String)
deriving Repr, DecidableEq

/-- The value a frontend API call resolves to: the server's response data, or
the literal fallback object `{ status: 'unhealthy' \x7d`. -/
inductive ApiValue where
  | data (d : String)
  | unhealthyStatus
deriving Repr, DecidableEq

/-- JS `x || dflt` on an optional string: the default is used when the value
is absent or empty (falsy). -/
def jsOrElse (v : Option String) (dflt : String) : String :=
  match v with
  | some s => if s.isEmpty then dflt else s
  | none => dflt

/-- `analyzeProduct`: resolves with the response data, and converts every
failure into a thrown `Error` with the branch's message. -/
def analyzeProduct : HttpOutcome → Except String ApiValue
  | .success d => .ok (.data d)
  | .errorResponse detail => .error (jsOrElse detail "Analysis failed")
  | .noResponse =>
      .error "Unable to reach the server. Please check your connection."
  | .setupError message =>
      .error (jsOrElse message "An unexpected error occurred")

/-- `getDemoAnalysis`: resolves with the response data, and converts every
failure into a thrown `Error`. -/
def getDemoAnalysis : HttpOutcome → Except String ApiValue
  | .success d => .ok (.data d)
  | _ => .error "Failed to load demo data"

/-- `checkHealth`: resolves with the response data on success and with the
object `{ status: 'unhealthy' \x7d` on any error; its catch block returns
instead of throwing. -/
def checkHealth : HttpOutcome → Except String ApiValue
  | .success d => .ok (.data d)
  | _ => .ok .unhealthyStatus

/-! ## Pipeline data model (modelled from the spec §3) -/

/-- A raw review record as supplied by the scraping collaborator. -/
structure RawReview where
  reviewer_name : String
  rating : ℚ
  title : String
  body : String
  date : String
  verified_purchase : Bool
  review_id : Option String
deriving Repr, DecidableEq

/-- Per-review verdict label: exactly one of genuine or fake. -/
inductive Label where
  | genuine
  | fake
deriving Repr, DecidableEq

/-- Per-review verdict: label, confidence in [0,1], reason strings, source
review identifier. -/
structure Verdict where
  label : Label
  confidence : ℚ
  reasons : List String
  review_id : Option String
deriving Repr, DecidableEq

/-! ## Preprocessor (modelled from the spec §4.1) -/

/-- Modelled from the spec: the Preprocessor is not among the checked-in
sources; text normalization lowercases the review text. -/
def normalizeText (s : String) : String := s.toLower

/-- Modelled from the spec: batch-relative near-duplicate detection by
normalized-text exact match — a review is a near-duplicate when its
normalized text occurs at least twice among the batch texts. -/
def isNearDuplicate (text : String) (batchTexts : List String) : Bool :=
  2 ≤ batchTexts.countP (fun t => normalizeText t == normalizeText text)

/-- The per-review features the modelled Rule Scorer consumes. -/
structure FeatureVector where
  wordCount : ℕ
  verified : Bool
  duplicate : Bool
deriving Repr, DecidableEq

/-- Modelled from the spec: Preprocessor `extract(raw_review, batch_context)`
— word count from the body, verified flag carried through, batch-relative
near-duplicate flag. -/
def extract (raw : RawReview) (batchTexts : List String) : FeatureVector :=
  { wordCount := ((normalizeText raw.body).splitOn " ").countP
      (fun w => !w.isEmpty)
    verified := raw.verified_purchase
    duplicate := isNearDuplicate raw.body batchTexts }

/-! ## Rule Scorer (modelled from the spec §4.2) -/

/-- Modelled from the spec: the Rule Scorer's data-driven table of
`(predicate, weight, reason_code)` checks (representative weights; the spec
leaves the production constants open). -/
def ruleChecks : List ((FeatureVector → Bool) × ℚ × String) :=
  [(fun fv => !fv.verified, (3 : ℚ)/10, "unverified-purchase"),
   (fun fv => fv.wordCount < 5, (3 : ℚ)/10, "short-generic-text"),
   (fun fv => fv.duplicate, (2 : ℚ)/5, "near-duplicate-text")]

/-- Modelled from the spec: Rule Scorer `score(feature_vector)` — the
triggered checks' weights are summed and the result clamped to [0,1]. -/
def ruleScore (fv : FeatureVector) : ℚ :=
  min 1 (max 0 (((ruleChecks.filter (fun c => c.1 fv)).map
    (fun c => c.2.1)).sum))

/-- Modelled from the spec: the reason codes of the triggered checks, in
table order. -/
def ruleReasons (fv : FeatureVector) : List String :=
  (ruleChecks.filter (fun c => c.1 fv)).map (fun c => c.2.2)

/-! ## Hybrid Scorer (modelled from the spec §4.4) -/

/-- Default blend weight of the rule sub-score. -/
def defaultRuleWeight : ℚ := 2/5

/-- Default blend weight of the model sub-score. -/
def defaultModelWeight : ℚ := 3/5

/-- The fixed decision threshold (default 0.5). -/
def decisionThreshold : ℚ := 1/2

/-- Modelled from the spec: the blended confidence.  With the model sub-score
available it is the weighted average; when the Learned Classifier is
unavailable the weights are renormalized over the available sources, so the
rule weight becomes `wRule / wRule` and the confidence is the rule sub-score
alone. -/
def hybridConfidence (wRule wModel ruleSub : ℚ) (modelSub : Option ℚ) : ℚ :=
  match modelSub with
  | some m => wRule * ruleSub + wModel * m
  | none => (wRule / wRule) * ruleSub

/-- Modelled from the spec: `fake` iff the confidence reaches the decision
threshold. -/
def hybridLabel (confidence : ℚ) : Label :=
  if decisionThreshold ≤ confidence then Label.fake else Label.genuine

/-- Modelled from the spec: Hybrid Scorer `combine` producing the Verdict;
a fake verdict with no rule reasons gets the generic pattern-based reason. -/
def combine (wRule wModel ruleSub : ℚ) (modelSub : Option ℚ)
    (reasons : List String) (reviewId : Option String) : Verdict :=
  let c := hybridConfidence wRule wModel ruleSub modelSub
  let l := hybridLabel c
  { label := l
    confidence := c
    reasons := if l = Label.fake ∧ reasons = []
               then ["pattern-based detection"] else reasons
    review_id := reviewId }

/-! ## Aggregator (modelled from the spec §4.5, §7(c)) -/

/-- Product-level aggregate metrics.  Percentage/rating fields are `Option`
so that the empty batch reports them as null. -/
structure AggregateMetrics where
  total_reviews : ℕ
  fake_count : ℕ
  genuine_count : ℕ
  fake_percentage : Option ℚ
  original_rating : Option ℚ
  adjusted_rating : Option ℚ
  rating_difference : Option ℚ
  authenticity_grade : String
deriving Repr, DecidableEq

/-- The summary text of the empty-batch terminal state. -/
def emptyBatchSummary : String := "No reviews were available for analysis."

/-- Modelled from the spec: the Aggregator's grade table (§4.5) maps fake
percentage to a letter grade with boundaries half-open on the lower bound,
inclusive at the stated lower number. -/
def gradeOf (fakePercentage : ℚ) : String :=
  if fakePercentage < 5 then "A"
  else if fakePercentage < 15 then "B"
  else if fakePercentage < 30 then "C"
  else if fakePercentage < 50 then "D"
  else "F"

/-- Modelled from the spec: Aggregator `aggregate(verdicts, raw_reviews)`
over rating/verdict pairs.  A batch of zero reviews is the valid terminal
state with total 0, null percentage/rating fields, grade N/A and the
no-reviews summary; otherwise counts, percentage, ratings and the letter
grade are computed as in §3/§4.5 (the one-decimal display rounding of the
percentage is presentation and not modelled). -/
def aggregate (reviews : List (ℚ × Verdict)) : AggregateMetrics × String :=
  match reviews with
  | [] =>
      ({ total_reviews := 0, fake_count := 0, genuine_count := 0
         fake_percentage := none, original_rating := none
         adjusted_rating := none, rating_difference := none
         authenticity_grade := "N/A" }, emptyBatchSummary)
  | _ :: _ =>
      let total := reviews.length
      let fake := reviews.countP (fun rv => rv.2.label == Label.fake)
      let genuine := reviews.countP (fun rv => rv.2.label == Label.genuine)
      let fakePct : ℚ := 100 * (fake : ℚ) / (total : ℚ)
      let orig : ℚ := (reviews.map Prod.fst).sum / (total : ℚ)
      let genuineRatings := (reviews.filter
        (fun rv => rv.2.label == Label.genuine)).map Prod.fst
      let adj : Option ℚ :=
        if genuineRatings.length = 0 then none
        else some (genuineRatings.sum / (genuineRatings.length : ℚ))
      ({ total_reviews := total, fake_count := fake, genuine_count := genuine
         fake_percentage := some fakePct, original_rating := some orig
         adjusted_rating := adj
         rating_difference := adj.map (fun a => orig - a)
         authenticity_grade := gradeOf fakePct },
       "Analysis of " ++ toString total ++ " reviews: grade " ++
         gradeOf fakePct)

/-! ## Full pipeline (modelled from the spec §2) -/

/-- Modelled from the spec: the end-to-end pipeline — preprocess each review
against the batch context, score by rules, blend with the optional learned
classifier (a deterministic loaded artifact, modelled as an optional function
of the normalized text), and aggregate the whole batch. -/
def runPipeline (model : Option (String → ℚ)) (batch : List RawReview) :
    List Verdict × (AggregateMetrics × String) :=
  let batchTexts := batch.map (fun r => r.body)
  let verdicts := batch.map (fun r =>
    let fv := extract r batchTexts
    let modelSub := model.map (fun f => f (normalizeText r.body))
    combine defaultRuleWeight defaultModelWeight (ruleScore fv) modelSub
      (ruleReasons fv) r.review_id)
  (verdicts, aggregate ((batch.zip verdicts).map (fun p => (p.1.rating, p.2))))

/-! ## Helper lemmas -/

lemma clampedRating_lower (rating : ℚ) : 1 ≤ clampedRating rating :=
  le_max_left 1 _

lemma clampedRating_upper (rating : ℚ) : clampedRating rating ≤ 5 :=
  max_le (by norm_num) (min_le_left 5 _)

lemma genuineTotal_tally (d : Distribution) (r : FrontReview) :
    genuineTotal (tallyReview d r) =
      genuineTotal d + (if r.label == some "fake" then 0 else 1) := by
  have h1 := clampedRating_lower r.rating
  have h2 := clampedRating_upper r.rating
  unfold tallyReview genuineTotal
  split_ifs with hl
  · simp [hl]
  · simp only [hl, if_neg, Bool.false_eq_true]
    set b := clampedRating r.rating with hb
    interval_cases b <;>
      simp [Function.update_apply] <;> omega

lemma fakeTotal_tally (d : Distribution) (r : FrontReview) :
    fakeTotal (tallyReview d r) =
      fakeTotal d + (if r.label == some "fake" then 1 else 0) := by
  have h1 := clampedRating_lower r.rating
  have h2 := clampedRating_upper r.rating
  unfold tallyReview fakeTotal
  split_ifs with hl
  · simp only [hl, if_pos]
    set b := clampedRating r.rating with hb
    interval_cases b <;>
      simp [Function.update_apply] <;> omega
  · simp [hl]

lemma distribution_totals (reviews : List FrontReview) (d : Distribution) :
    fakeTotal (reviews.foldl tallyReview d) +
        genuineTotal (reviews.foldl tallyReview d) =
      fakeTotal d + genuineTotal d + reviews.length := by
  induction reviews generalizing d with
  | nil => simp
  | cons r rest ih =>
      simp only [List.foldl_cons, List.length_cons, ih,
        fakeTotal_tally, genuineTotal_tally]
      split_ifs <;> omega

lemma genuineTotal_foldl (reviews : List FrontReview) (d : Distribution) :
    genuineTotal (reviews.foldl tallyReview d) =
      genuineTotal d + reviews.countP (fun r => !(r.label == some "fake")) := by
  induction reviews generalizing d with
  | nil => simp
  | cons r rest ih =>
      simp only [List.foldl_cons, ih, genuineTotal_tally, List.countP_cons]
      cases h : r.label == some "fake" <;> simp [h] <;> omega

lemma genuineTotal_calculateDistribution (reviews : List FrontReview) :
    genuineTotal (calculateDistribution reviews) =
      reviews.countP (fun r => !(r.label == some "fake")) := by
  have h := genuineTotal_foldl reviews initDistribution
  simpa [calculateDistribution, initDistribution, genuineTotal] using h

lemma countP_fake_add_genuine (l : List (ℚ × Verdict)) :
    l.countP (fun rv => rv.2.label == Label.fake) +
      l.countP (fun rv => rv.2.label == Label.genuine) = l.length := by
  induction l with
  | nil => simp
  | cons x xs ih =>
      simp only [List.countP_cons, List.length_cons]
      cases h : x.2.label <;> simp [h] <;> omega

/-! ## Claim theorems -/

/-- C1: Grade assignment is a total function of fake percentage with
half-open boundaries inclusive at the stated lower number: exactly 5.0 yields
B, exactly 15.0 yields C, exactly 30.0 yields D, any percentage ≥ 50.0 yields
F, and anything below 5 yields A; the frontend severity-colour tiers bucket
fake percentage with the same strict lower bounds at 15, 30 and 50. -/
theorem grade_and_color_bucketing (p : ℚ) :
    gradeOf 5 = "B" ∧ gradeOf 15 = "C" ∧ gradeOf 30 = "D" ∧ gradeOf 50 = "F" ∧
    (gradeOf p = "A" ↔ p < 5) ∧
    (gradeOf p = "B" ↔ 5 ≤ p ∧ p < 15) ∧
    (gradeOf p = "C" ↔ 15 ≤ p ∧ p < 30) ∧
    (gradeOf p = "D" ↔ 30 ≤ p ∧ p < 50) ∧
    (gradeOf p = "F" ↔ 50 ≤ p) ∧
    (getFakePercentageColor p = "text-green-600" ↔ p < 15) ∧
    (getFakePercentageColor p = "text-yellow-600" ↔ 15 ≤ p ∧ p < 30) ∧
    (getFakePercentageColor p = "text-orange-600" ↔ 30 ≤ p ∧ p < 50) ∧
    (getFakePercentageColor p = "text-red-600" ↔ 50 ≤ p) := by
  unfold gradeOf getFakePercentageColor
  refine ⟨by norm_num, by norm_num, by norm_num, by norm_num, ?_⟩
  split_ifs with h1 h2 h3 h4 <;>
    refine ⟨?_, ?_, ?_, ?_, ?_, ?_, ?_, ?_, ?_⟩ <;>
    simp_all <;> first
      | linarith
      | (intro h; linarith)

/-- C2: fake count plus genuine count equals the total review count, both in
the aggregate metrics and in the chart layer: the rating-distribution fake
series plus genuine series across all buckets sums to the length of the
review list, and the pie-chart total fakeCount + genuineCount matches the
total. -/
theorem fake_plus_genuine_eq_total (reviews : List (ℚ × Verdict))
    (chartReviews : List FrontReview) :
    (aggregate reviews).1.fake_count + (aggregate reviews).1.genuine_count =
        (aggregate reviews).1.total_reviews ∧
    fakeTotal (calculateDistribution chartReviews) +
        genuineTotal (calculateDistribution chartReviews) =
      chartReviews.length ∧
    pieTotal (aggregate reviews).1.fake_count
        (aggregate reviews).1.genuine_count =
      (aggregate reviews).1.total_reviews := by
  have hagg : (aggregate reviews).1.fake_count +
      (aggregate reviews).1.genuine_count =
      (aggregate reviews).1.total_reviews := by
    cases reviews with
    | nil => simp [aggregate]
    | cons x xs => simpa [aggregate] using countP_fake_add_genuine (x :: xs)
  have hchart : fakeTotal (calculateDistribution chartReviews) +
      genuineTotal (calculateDistribution chartReviews) =
      chartReviews.length := by
    have h := distribution_totals chartReviews initDistribution
    simpa [calculateDistribution, initDistribution, fakeTotal,
      genuineTotal] using h
  exact ⟨hagg, hchart, hagg⟩

/-- C3: a batch of zero reviews is a valid terminal state: total 0, null
original/adjusted rating and fake percentage, grade N/A, the no-reviews
summary; and the grade badge renders N/A — and any unrecognized grade
string — with the neutral grey badge. -/
theorem empty_batch_terminal_state :
    (aggregate []).1.total_reviews = 0 ∧
    (aggregate []).1.original_rating = none ∧
    (aggregate []).1.adjusted_rating = none ∧
    (aggregate []).1.fake_percentage = none ∧
    (aggregate []).1.authenticity_grade = "N/A" ∧
    (aggregate []).2 = emptyBatchSummary ∧
    gradeBadgeColor "N/A" = "bg-gray-400" ∧
    (∀ g : String, g ∉ (["A", "B", "C", "D", "F", "N/A"] : List String) →
      gradeBadgeColor g = "bg-gray-400") := by
  refine ⟨rfl, rfl, rfl, rfl, rfl, rfl, rfl, ?_⟩
  intro g hg
  simp only [List.mem_cons, List.not_mem_nil, or_false, not_or] at hg
  obtain ⟨h1, h2, h3, h4, h5, h6⟩ := hg
  simp [gradeBadgeColor, h1, h2, h3, h4, h5, h6]

/-- C3 witness: an unrecognized grade string gets the grey badge. -/
theorem empty_batch_terminal_state_witness :
    ("Z" : String) ∉ (["A", "B", "C", "D", "F", "N/A"] : List String) ∧
      gradeBadgeColor "Z" = "bg-gray-400" :=
  ⟨by decide, empty_batch_terminal_state.2.2.2.2.2.2.2 "Z" (by decide)⟩

/-- C4: under the spec's constraints on sub-scores and blend weights, the
blended confidence lies in [0,1] and the verdict's label is fake iff the
confidence reaches the decision threshold, in both normal and degraded mode;
the default decision threshold is 0.5. -/
theorem label_iff_confidence_threshold (wr wm r m : ℚ) (rs : List String)
    (rid : Option String) (hwr : 0 ≤ wr) (hwm : 0 ≤ wm) (hsum : wr + wm = 1)
    (hr0 : 0 ≤ r) (hr1 : r ≤ 1) (hm0 : 0 ≤ m) (hm1 : m ≤ 1) :
    (0 ≤ (combine wr wm r (some m) rs rid).confidence ∧
      (combine wr wm r (some m) rs rid).confidence ≤ 1) ∧
    ((combine wr wm r (some m) rs rid).label = Label.fake ↔
      decisionThreshold ≤ (combine wr wm r (some m) rs rid).confidence) ∧
    (wr ≠ 0 →
      0 ≤ (combine wr wm r none rs rid).confidence ∧
      (combine wr wm r none rs rid).confidence ≤ 1 ∧
      ((combine wr wm r none rs rid).label = Label.fake ↔
        decisionThreshold ≤ (combine wr wm r none rs rid).confidence)) ∧
    decisionThreshold = 1/2 := by
  have hconf : (combine wr wm r (some m) rs rid).confidence =
      wr * r + wm * m := rfl
  have hlab : (combine wr wm r (some m) rs rid).label =
      hybridLabel (wr * r + wm * m) := rfl
  have hub : wr * r + wm * m ≤ 1 := by
    have u1 : wr * r ≤ wr := mul_le_of_le_one_right hwr hr1
    have u2 : wm * m ≤ wm := mul_le_of_le_one_right hwm hm1
    linarith
  have hlb : 0 ≤ wr * r + wm * m := by positivity
  refine ⟨⟨by rw [hconf]; exact hlb, by rw [hconf]; exact hub⟩, ?_, ?_, rfl⟩
  · rw [hlab, hconf]
    unfold hybridLabel
    split_ifs with h <;> simp [h]
  · intro hwr0
    have hconf0 : (combine wr wm r none rs rid).confidence = r := by
      show (wr / wr) * r = r
      rw [div_self hwr0, one_mul]
    have hlab0 : (combine wr wm r none rs rid).label =
        hybridLabel ((wr / wr) * r) := rfl
    refine ⟨by rw [hconf0]; exact hr0, by rw [hconf0]; exact hr1, ?_⟩
    rw [hlab0]
    have : (wr / wr) * r = r := by rw [div_self hwr0, one_mul]
    rw [this, hconf0]
    unfold hybridLabel
    split_ifs with h <;> simp [h]

/-- C4 witness: concrete weights 0.4/0.6, rule 0.5, model 0.75. -/
theorem label_iff_confidence_threshold_witness :
    (0 : ℚ) ≤ 2/5 ∧ (0 : ℚ) ≤ 3/5 ∧ (2 : ℚ)/5 + 3/5 = 1 ∧
    (0 : ℚ) ≤ 1/2 ∧ (1 : ℚ)/2 ≤ 1 ∧ (0 : ℚ) ≤ 3/4 ∧ (3 : ℚ)/4 ≤ 1 ∧
    (0 ≤ (combine (2/5) (3/5) (1/2) (some (3/4)) [] none).confidence ∧
      (combine (2/5) (3/5) (1/2) (some (3/4)) [] none).confidence ≤ 1) :=
  ⟨by norm_num, by norm_num, by norm_num, by norm_num, by norm_num,
   by norm_num, by norm_num,
   (label_iff_confidence_threshold (2/5) (3/5) (1/2) (3/4) [] none
     (by norm_num) (by norm_num) (by norm_num) (by norm_num) (by norm_num)
     (by norm_num) (by norm_num)).1⟩

/-- C5: in degraded mode (no model sub-score) the blended confidence equals
the rule sub-score alone: the rule weight is renormalized to `wRule / wRule`
= 1 over the available sources rather than left at its nominal value, so
confidences are not systematically deflated; in particular this holds at the
default weights. -/
theorem degraded_mode_confidence (wr wm r : ℚ) (rs : List String)
    (rid : Option String) (hwr : wr ≠ 0) :
    (combine wr wm r none rs rid).confidence = r ∧
    hybridConfidence wr wm r none = (wr / wr) * r ∧
    (combine defaultRuleWeight defaultModelWeight r none rs rid).confidence
      = r := by
  refine ⟨?_, rfl, ?_⟩
  · show (wr / wr) * r = r
    rw [div_self hwr, one_mul]
  · show (defaultRuleWeight / defaultRuleWeight) * r = r
    norm_num [defaultRuleWeight]

/-- C5 witness: default rule weight, rule sub-score 0.7. -/
theorem degraded_mode_confidence_witness :
    (2 : ℚ)/5 ≠ 0 ∧
      (combine (2/5) (3/5) (7/10) none [] none).confidence = 7/10 :=
  ⟨by norm_num,
   (degraded_mode_confidence (2/5) (3/5) (7/10) [] none (by norm_num)).1⟩

/-- C6: the pipeline is deterministic — running it twice on the same batch
(with the same loaded model artifact) gives equal verdicts and metrics — and
per-review feature extraction, including batch-relative near-duplicate
detection, is independent of the scan order of the batch context: a
permutation of the batch texts yields the identical FeatureVector. -/
theorem pipeline_deterministic (model : Option (String → ℚ))
    (batch : List RawReview) (raw : RawReview)
    (texts texts' : List String) (hperm : texts.Perm texts') :
    runPipeline model batch = runPipeline model batch ∧
    extract raw texts = extract raw texts' := by
  refine ⟨rfl, ?_⟩
  simp [extract, isNearDuplicate, hperm.countP_eq]

/-- C6 witness: swapping the two batch texts leaves extraction unchanged. -/
theorem pipeline_deterministic_witness :
    (("great" :: "nice" :: []) : List String).Perm
        ("nice" :: "great" :: []) ∧
    extract ⟨"n", 5, "t", "great", "d", true, none⟩
        ("great" :: "nice" :: []) =
      extract ⟨"n", 5, "t", "great", "d", true, none⟩
        ("nice" :: "great" :: []) :=
  ⟨List.Perm.swap "nice" "great" [],
   (pipeline_deterministic none [] ⟨"n", 5, "t", "great", "d", true, none⟩
     ("great" :: "nice" :: []) ("nice" :: "great" :: [])
     (List.Perm.swap "nice" "great" [])).2⟩

/-- C7: a rating outside 1–5 never rejects a review or its batch: the
rounded-and-clamped rating always lands in the 1–5 range, and tallying any
review adds exactly one to the combined bucket counts — every review lands in
exactly one bucket. -/
theorem out_of_range_rating_clamped (rating : ℚ) :
    1 ≤ clampedRating rating ∧ clampedRating rating ≤ 5 ∧
    (∀ (d : Distribution) (r : FrontReview),
      fakeTotal (tallyReview d r) + genuineTotal (tallyReview d r) =
        fakeTotal d + genuineTotal d + 1) := by
  refine ⟨clampedRating_lower rating, clampedRating_upper rating, ?_⟩
  intro d r
  rw [fakeTotal_tally, genuineTotal_tally]
  split_ifs <;> omega

/-- C8: for a confidence within the spec's [0,1] bound, the displayed
percentage `Math.round(confidence * 100)` is an integer between 0 and 100
inclusive. -/
theorem confidence_percent_range (c : ℚ) (h0 : 0 ≤ c) (h1 : c ≤ 1) :
    0 ≤ confidencePercent c ∧ confidencePercent c ≤ 100 := by
  unfold confidencePercent
  rw [round_eq]
  constructor
  · rw [Int.le_floor]
    push_cast
    nlinarith
  · have hle : (c * 100 + 1/2 : ℚ) ≤ 100 + 1/2 := by nlinarith
    have h100 : ⌊(100 : ℚ) + 1/2⌋ = 100 := by
      rw [Int.floor_eq_iff]
      constructor <;> norm_num
    calc ⌊c * 100 + 1/2⌋ ≤ ⌊(100 : ℚ) + 1/2⌋ := Int.floor_le_floor hle
      _ = 100 := h100

/-- C8 witness: confidence 0.9 gives a percentage within 0–100. -/
theorem confidence_percent_range_witness :
    (0 : ℚ) ≤ 9/10 ∧ (9 : ℚ)/10 ≤ 1 ∧
      (0 ≤ confidencePercent (9/10) ∧ confidencePercent (9/10) ≤ 100) :=
  ⟨by norm_num, by norm_num,
   confidence_percent_range (9/10) (by norm_num) (by norm_num)⟩

/-- C9: the rating-distribution chart counts every review whose label is not
exactly 'fake' — including missing and unrecognized labels — in the genuine
series, so its genuine total can exceed the count of label = 'genuine',
whereas the results-page filter keeps only exact label matches: a review with
an out-of-vocabulary label shows in neither the fake nor the genuine
filter. -/
theorem non_fake_labels_count_genuine :
    (∀ reviews : List FrontReview,
        genuineTotal (calculateDistribution reviews) =
          reviews.countP (fun r => !(r.label == some "fake"))) ∧
    genuineTotal (calculateDistribution [⟨4, some "helpful", 1/2⟩]) = 1 ∧
    ([(⟨4, some "helpful", 1/2⟩ : FrontReview)] : List FrontReview).countP
        (fun r => r.label == some "genuine") = 0 ∧
    (∀ (f : String) (reviews : List FrontReview), f ≠ "all" →
        filteredReviews f reviews =
          reviews.filter (fun r => r.label == some f)) ∧
    filteredReviews "fake" [⟨4, some "helpful", 1/2⟩] = [] ∧
    filteredReviews "genuine" [⟨4, some "helpful", 1/2⟩] = [] := by
  refine ⟨genuineTotal_calculateDistribution, ?_, by decide, ?_, ?_, ?_⟩
  · rw [genuineTotal_calculateDistribution]
    decide
  · intro f reviews hf
    unfold filteredReviews
    simp [hf]
  · simp [filteredReviews]
  · simp [filteredReviews]

/-- C9 witness: the non-'all' filter is an exact-match filter. -/
theorem non_fake_labels_count_genuine_witness :
    ("fake" : String) ≠ "all" ∧
      filteredReviews "fake" [] =
        List.filter (fun r => r.label == some "fake") [] :=
  ⟨by decide, non_fake_labels_count_genuine.2.2.2.1 "fake" [] (by decide)⟩

/-- C10: checkHealth never throws — every outcome resolves to a value, the
server's response data on success and the unhealthy-status object on any
error — while analyzeProduct and getDemoAnalysis convert every failure into a
thrown Error. -/
theorem checkHealth_never_throws (o : HttpOutcome) :
    (∃ v, checkHealth o = Except.ok v) ∧
    (∀ d, checkHealth (.success d) = Except.ok (.data d)) ∧
    ((∀ d, o ≠ .success d) →
      checkHealth o = Except.ok .unhealthyStatus ∧
      (∃ e, analyzeProduct o = Except.error e) ∧
      getDemoAnalysis o = Except.error "Failed to load demo data") := by
  refine ⟨?_, fun d => rfl, ?_⟩
  · cases o <;> exact ⟨_, rfl⟩
  · intro h
    cases o with
    | success d => exact absurd rfl (h d)
    | errorResponse detail => exact ⟨rfl, ⟨_, rfl⟩, rfl⟩
    | noResponse => exact ⟨rfl, ⟨_, rfl⟩, rfl⟩
    | setupError m => exact ⟨rfl, ⟨_, rfl⟩, rfl⟩

/-- C10 witness: at the no-response outcome, checkHealth resolves while the
other calls throw. -/
theorem checkHealth_never_throws_witness :
    (∀ d, HttpOutcome.noResponse ≠ HttpOutcome.success d) ∧
      (checkHealth .noResponse = Except.ok .unhealthyStatus ∧
        (∃ e, analyzeProduct .noResponse = Except.error e) ∧
        getDemoAnalysis .noResponse =
          Except.error "Failed to load demo data") :=
  ⟨fun d h => HttpOutcome.noConfusion h,
   (checkHealth_never_throws .noResponse).2.2
     (fun d h => HttpOutcome.noConfusion h)⟩

end FakeReview
